import Mathlib

/-!
Shallow embedding of the `tvm-financejs` time-value-of-money library
(`src/index.js`) and verification of its natural-language specification.

JavaScript numbers are modelled as exact rationals (for the functions that
use only field operations: `InternalPV`, `EVALNPV`, `NPV`, `IRR`) or as real
numbers (for the functions that use `Math.pow` / `Math.log` with arbitrary
real exponents: `PV`, `FV`, `PMT`, `NPER`, `IPMT`, `PPMT`, `EVALRATE`,
`RATE`).  A JavaScript return value is either a number, an error string, the
`null` sentinel, or `undefined` (a function body ending without `return`);
this is modelled by the `FinResult` type below.
-/

namespace Tvm

/-- Result of a finance formula call: a number, an error message string,
the JavaScript `null` sentinel, or JavaScript `undefined` (reached when a
function body finishes without executing a `return` statement). -/
inductive FinResult (α : Type) where
  | num (x : α)
  | err (s : String)
  | nil
  | undef
deriving DecidableEq

/-! ## InternalPV (src/index.js lines 513-535), helper for IRR -/

/-- The backward (Horner) discounting loop of `InternalPV`: running from the
last index down to `lowerBound`, `tempTotal = tempTotal / divRate + values[i]`.
On the sublist `[v_l, ..., v_u]` this computes
`v_l + (v_(l+1) + (... + v_u / d ...) / d) / d`. -/
def hornerPV (divRate : ℚ) : List ℚ → ℚ
  | [] => 0
  | v :: rest => hornerPV divRate rest / divRate + v

/-- `InternalPV(values, guess)` from src/index.js lines 513-535: skips the
leading zero cash flows (`while values[lowerBound] === 0: lowerBound++`),
then discounts backward with divisor `divRate = 1 + guess`. -/
def InternalPV (values : List ℚ) (guess : ℚ) : ℚ :=
  hornerPV (1 + guess) (values.dropWhile (fun v => v = 0))

/-! ## EVALNPV (src/index.js lines 491-506) and NPV (lines 269-285) -/

/-- The `while (i <= upperBound)` loop of `EVALNPV`, with the number of
remaining iterations (`upperBound + 1 - i`) made explicit as fuel.  Each
iteration reads `tempVar2 = values[i]`, updates the running discount factor
`tempVar = tempVar + tempVar * rate`, and accumulates
`tempTotal + tempVar2 / tempVar` unless the sign filter excludes the value. -/
def evalnpvLoop (rate npvType : ℚ) (values : List ℚ) (upperBound : ℕ) :
    ℕ → ℕ → ℚ → ℚ → ℚ
  | 0, _, _, tempTotal => tempTotal
  | fuel + 1, i, tempVar, tempTotal =>
    if i ≤ upperBound then
      let tempVar2 := values.getD i 0
      let tempVarNext := tempVar + tempVar * rate
      let tempTotalNext :=
        if ¬(npvType > 0 ∧ tempVar2 > 0) ∨ ¬(npvType < 0 ∧ tempVar2 < 0) then
          tempTotal + tempVar2 / tempVarNext
        else
          tempTotal
      evalnpvLoop rate npvType values upperBound fuel (i + 1) tempVarNext tempTotalNext
    else
      tempTotal

/-- `EVALNPV(rate, values, npvType, lowerBound, upperBound)` from
src/index.js lines 491-506. -/
def EVALNPV (rate : ℚ) (values : List ℚ) (npvType : ℚ)
    (lowerBound upperBound : ℕ) : ℚ :=
  evalnpvLoop rate npvType values upperBound (upperBound + 1 - lowerBound) lowerBound 1 0

/-- `NPV(rate, ...values)` from src/index.js lines 269-285: errors on an
empty value list and on `rate === -1`, otherwise delegates to `EVALNPV`
with `npvType = 0` over the whole list. -/
def NPV (rate : ℚ) (values : List ℚ) : FinResult ℚ :=
  if values.length < 1 then .err "Error - Invalid Values"
  else if rate = -1 then .err "Error - Invalid Rate"
  else .num (EVALNPV rate values 0 0 (values.length - 1))

/-! ## IRR (src/index.js lines 302-384) -/

/-- IRR solver epsilon `epslMax = 0.0000001` (src/index.js line 305). -/
def irrEpslMax : ℚ := 1 / 10 ^ 7

/-- IRR solver step `step = 0.00001` (src/index.js line 306). -/
def irrStepSize : ℚ := 1 / 10 ^ 5

/-- The scan of src/index.js lines 319-327: `tempVar` starts as
`values[0] > 0 ? values[0] : values[0] * -1` and each loop iteration
replaces it by `Math.abs(values[i])` whenever that is larger. -/
def irrMaxAbs (values : List ℚ) : ℚ :=
  let first := values.getD 0 0
  let start := if first > 0 then first else first * (-1)
  values.foldl (fun acc v => if |v| > acc then |v| else acc) start

/-- The scale-aware NPV tolerance `tempNpvEpsl = tempVar * epslMax * 0.01`
of src/index.js line 329. -/
def irrNpvEpsl (values : List ℚ) : ℚ :=
  irrMaxAbs values * irrEpslMax * (1 / 100)

/-- The four mutable locals of the IRR secant loop. -/
structure IrrState where
  Rate0 : ℚ
  Npv0 : ℚ
  Rate1 : ℚ
  Npv1 : ℚ
deriving DecidableEq

/-- One iteration of the IRR `while (i <= iterMax)` loop body
(src/index.js lines 344-381): nudge on a flat secant, error if still flat,
secant update with bisection-style clamp at `-1`, convergence test, swap.
Returns either the returned result or the next loop state. -/
def irrStep (values : List ℚ) (tempNpvEpsl : ℚ) (s : IrrState) :
    FinResult ℚ ⊕ IrrState :=
  let nudged :=
    if s.Npv1 = s.Npv0 then
      let r0 := if s.Rate1 > s.Rate0 then s.Rate0 - irrStepSize else s.Rate0 + irrStepSize
      (r0, InternalPV values r0)
    else
      (s.Rate0, s.Npv0)
  if s.Npv1 = nudged.2 then
    .inl (.err "Error - invalid values")
  else
    let secant := s.Rate1 - (s.Rate1 - nudged.1) * s.Npv1 / (s.Npv1 - nudged.2)
    let rate0 := if secant ≤ -1 then (s.Rate1 - 1) * (1 / 2) else secant
    let npv0 := InternalPV values rate0
    let tempVar := if rate0 > s.Rate1 then rate0 - s.Rate1 else s.Rate1 - rate0
    let tempVar2 := if npv0 > 0 then npv0 else npv0 * (-1)
    if tempVar2 < tempNpvEpsl ∧ tempVar < irrEpslMax then
      .inl (.num rate0)
    else
      .inr ⟨s.Rate1, s.Npv1, rate0, npv0⟩

/-- The IRR `while (i <= iterMax)` loop with `iterMax = 39` (so at most 40
iterations, passed as fuel); exhausting the fuel reaches line 383
`return "Error - iterMax exceeded"`. -/
def irrLoop (values : List ℚ) (tempNpvEpsl : ℚ) : ℕ → IrrState → FinResult ℚ
  | 0, _ => .err "Error - iterMax exceeded"
  | fuel + 1, s =>
    match irrStep values tempNpvEpsl s with
    | .inl r => r
    | .inr s1 => irrLoop values tempNpvEpsl fuel s1

/-- `tempRate1` of src/index.js line 334: `tempNpv0 > 0 ? tempRate0 + step
: tempRate0 - step` with `tempRate0 = guess`. -/
def irrRate1 (values : List ℚ) (guess : ℚ) : ℚ :=
  if InternalPV values guess > 0 then guess + irrStepSize else guess - irrStepSize

/-- The IRR loop entry state `(tempRate0, tempNpv0, tempRate1, tempNpv1)`
built on src/index.js lines 331-340. -/
def irrInit (values : List ℚ) (guess : ℚ) : IrrState :=
  ⟨guess, InternalPV values guess, irrRate1 values guess,
    InternalPV values (irrRate1 values guess)⟩

/-- `IRR(values, guess)` from src/index.js lines 302-384 (the `guess`
default `0.1` is supplied by the caller here). -/
def IRR (values : List ℚ) (guess : ℚ) : FinResult ℚ :=
  if guess ≤ -1 then .err "Error - invalid guess"
  else if values.length < 1 then .nil
  else if irrRate1 values guess ≤ -1 then .err "Error - invalid values"
  else irrLoop values (irrNpvEpsl values) 40 (irrInit values guess)

/-- Runs the IRR loop body `fuel` times, returning `some` of the loop state
when no iteration executed a `return`, and `none` when some iteration
returned. -/
def irrRuns (values : List ℚ) (tempNpvEpsl : ℚ) : ℕ → IrrState → Option IrrState
  | 0, s => some s
  | fuel + 1, s =>
    match irrStep values tempNpvEpsl s with
    | .inl _ => none
    | .inr s1 => irrRuns values tempNpvEpsl fuel s1

/-- Number of IRR loop iterations actually executed, with fuel. -/
def irrStepsUsed (values : List ℚ) (tempNpvEpsl : ℚ) : ℕ → IrrState → ℕ
  | 0, _ => 0
  | fuel + 1, s =>
    match irrStep values tempNpvEpsl s with
    | .inl _ => 1
    | .inr s1 => 1 + irrStepsUsed values tempNpvEpsl fuel s1

/-- Number of secant iterations an `IRR(values, guess)` call executes. -/
def IRRiterations (values : List ℚ) (guess : ℚ) : ℕ :=
  if guess ≤ -1 then 0
  else if values.length < 1 then 0
  else if irrRate1 values guess ≤ -1 then 0
  else irrStepsUsed values (irrNpvEpsl values) 40 (irrInit values guess)

/-! ## Closed-form annuity formulas over ℝ
`Math.pow(b, e)` and `Math.log` are modelled by `Real.rpow` (the `^` below,
real exponent) and `Real.log`. -/

/-- `PV(rate, nper, pmt, fv, type)` from src/index.js lines 43-57. -/
noncomputable def PV (rate nper pmt fv type : ℝ) : ℝ :=
  if rate = 0 then
    -pmt * nper - fv
  else
    let tempVar : ℝ := if type ≠ 0 then 1 + rate else 1
    let tempVar2 := 1 + rate
    let tempVar3 := tempVar2 ^ nper
    let result := -(fv + pmt * tempVar * ((tempVar3 - 1) / rate)) / tempVar3
    result

/-- `NPER(rate, pmt, pv, fv, type)` from src/index.js lines 80-108. -/
noncomputable def NPER (rate pmt pv fv type : ℝ) : FinResult ℝ :=
  if rate = 0 then
    if pmt = 0 then .err "Error - Payment cannot be 0"
    else .num (-(pv + fv) / pmt)
  else
    let tempVar := if type ≠ 0 then pmt * (1 + rate) / rate else pmt / rate
    let tempVarFV := -fv + tempVar
    let tempVarPV := pv + tempVar
    if tempVarFV < 0 ∧ tempVarPV < 0 then
      .num ((Real.log (tempVarFV * (-1)) - Real.log (tempVarPV * (-1))) /
        Real.log (rate + 1))
    else if tempVarFV ≤ 0 ∨ tempVarPV ≤ 0 then
      .err "Error - Cannot Calculate NPER"
    else
      .num ((Real.log tempVarFV - Real.log tempVarPV) / Real.log (rate + 1))

/-- `PMT(rate, nper, pv, fv, type)` from src/index.js lines 134-148. -/
noncomputable def PMT (rate nper pv fv type : ℝ) : ℝ :=
  if rate = 0 then
    (-fv - pv) / nper
  else
    let tempVar : ℝ := if type ≠ 0 then 1 + rate else 1
    let tempVar2 := rate + 1
    let tempVar3 := tempVar2 ^ nper
    (-fv - pv * tempVar3) / (tempVar * (tempVar3 - 1)) * rate

/-- `FV(rate, nper, pmt, pv, type)` from src/index.js lines 167-180. -/
noncomputable def FV (rate nper pmt pv type : ℝ) : ℝ :=
  if rate = 0 then
    -pv - pmt * nper
  else
    let tempVar : ℝ := if type ≠ 0 then 1 + rate else 1
    let tempVar2 := 1 + rate
    let tempVar3 := tempVar2 ^ nper
    let result := -pv * tempVar3 - pmt / rate * tempVar * (tempVar3 - 1)
    result

/-- `IPMT(rate, per, nper, pv, fv, type)` from src/index.js lines 206-225.
The inner `this.FV(rate, per - tempVar, pmt, pv)` call leaves `type`
undefined, which defaults to `0`. -/
noncomputable def IPMT (rate per nper pv fv type : ℝ) : FinResult ℝ :=
  let tempVar : ℝ := if type ≠ 0 then 2 else 1
  if per ≤ 0 ∨ per ≥ nper + 1 then .err "Error - invalid Period"
  else if type ≠ 0 ∧ per = 1 then .num 0
  else
    let pmt := PMT rate nper pv fv type
    let pvShift := if type ≠ 0 then pv + pmt else pv
    .num (FV rate (per - tempVar) pmt pvShift 0 * rate)

/-- `PPMT(rate, per, nper, pv, fv, type)` from src/index.js lines 243-252.
Inside the `else` branch the inner `IPMT` call shares the guard already
checked here, so its non-numeric branches are unreachable; they are passed
through unchanged. -/
noncomputable def PPMT (rate per nper pv fv type : ℝ) : FinResult ℝ :=
  if per ≤ 0 ∨ per ≥ nper + 1 then .err "Error - invalid Period"
  else
    let pmt := PMT rate nper pv fv type
    match IPMT rate per nper pv fv type with
    | .num x => .num (pmt - x)
    | r => r

/-! ## RATE (src/index.js lines 412-465) and EVALRATE (lines 473-484) -/

/-- `EVALRATE(rate, nper, pmt, pv, fv, type)` from src/index.js
lines 473-484. -/
noncomputable def EVALRATE (rate nper pmt pv fv type : ℝ) : ℝ :=
  if rate = 0 then
    pv + pmt * nper + fv
  else
    let tempVar3 := rate + 1
    let tempVar := tempVar3 ^ nper
    let tempVar2 : ℝ := if type ≠ 0 then 1 + rate else 1
    pv * tempVar + pmt * tempVar2 * (tempVar - 1) / rate + fv

/-- RATE solver epsilon `epslMax = 0.0000001` (src/index.js line 422). -/
noncomputable def rateEpslMax : ℝ := 1 / 10 ^ 7

/-- RATE solver step `step = 0.00001` (src/index.js line 423). -/
noncomputable def rateStepSize : ℝ := 1 / 10 ^ 5

/-- The four mutable locals of the RATE secant loop. -/
structure RateState where
  Rate0 : ℝ
  Y0 : ℝ
  Rate1 : ℝ
  Y1 : ℝ

/-- One iteration of the RATE `while (i < iterMax)` loop body
(src/index.js lines 439-464): nudge on a flat secant
(`Rate0 - step` when `Rate0 < Rate1`, else `Rate0 - step * -1`), error
`"#NUM!"` if still flat, secant update, convergence test `|Y0| < epslMax`,
swap.  Returns either the returned result or the next loop state. -/
noncomputable def rateStep (nper pmt pv fv type : ℝ) (s : RateState) :
    FinResult ℝ ⊕ RateState :=
  let nudged :=
    if s.Y1 = s.Y0 then
      let r0 := if s.Rate0 < s.Rate1 then s.Rate0 - rateStepSize
        else s.Rate0 - rateStepSize * (-1)
      (r0, EVALRATE r0 nper pmt pv fv type)
    else
      (s.Rate0, s.Y0)
  if s.Y1 = nudged.2 then
    .inl (.err "#NUM!")
  else
    let rate0 := s.Rate1 - (s.Rate1 - nudged.1) * s.Y1 / (s.Y1 - nudged.2)
    let y0 := EVALRATE rate0 nper pmt pv fv type
    if |y0| < rateEpslMax then
      .inl (.num rate0)
    else
      .inr ⟨s.Rate1, s.Y1, rate0, y0⟩

/-- The RATE `while (i < iterMax)` loop with `iterMax = 128` (passed as
fuel); exhausting the fuel falls off the end of the function body, i.e.
returns JavaScript `undefined`. -/
noncomputable def rateLoop (nper pmt pv fv type : ℝ) : ℕ → RateState → FinResult ℝ
  | 0, _ => .undef
  | fuel + 1, s =>
    match rateStep nper pmt pv fv type s with
    | .inl r => r
    | .inr s1 => rateLoop nper pmt pv fv type fuel s1

/-- `Rate1` of src/index.js line 434: `Y0 > 0 ? Rate0 / 2 : Rate0 * 2`
with `Rate0 = guess`. -/
noncomputable def rateRate1 (nper pmt pv fv type guess : ℝ) : ℝ :=
  if EVALRATE guess nper pmt pv fv type > 0 then guess / 2 else guess * 2

/-- The RATE loop entry state `(Rate0, Y0, Rate1, Y1)` built on
src/index.js lines 431-435. -/
noncomputable def rateInit (nper pmt pv fv type guess : ℝ) : RateState :=
  ⟨guess, EVALRATE guess nper pmt pv fv type,
    rateRate1 nper pmt pv fv type guess,
    EVALRATE (rateRate1 nper pmt pv fv type guess) nper pmt pv fv type⟩

/-- `RATE(nper, pmt, pv, fv, type, guess)` from src/index.js lines 412-465
(the `guess` default `0.1` is supplied by the caller here). -/
noncomputable def RATE (nper pmt pv fv type guess : ℝ) : FinResult ℝ :=
  if nper ≤ 0 then .err "Error - invalid Period"
  else rateLoop nper pmt pv fv type 128 (rateInit nper pmt pv fv type guess)

/-- Runs the RATE loop body `fuel` times, returning `some` of the loop
state when no iteration executed a `return`, and `none` when some
iteration returned. -/
noncomputable def rateRuns (nper pmt pv fv type : ℝ) : ℕ → RateState → Option RateState
  | 0, s => some s
  | fuel + 1, s =>
    match rateStep nper pmt pv fv type s with
    | .inl _ => none
    | .inr s1 => rateRuns nper pmt pv fv type fuel s1

/-- Number of RATE loop iterations actually executed, with fuel. -/
noncomputable def rateStepsUsed (nper pmt pv fv type : ℝ) : ℕ → RateState → ℕ
  | 0, _ => 0
  | fuel + 1, s =>
    match rateStep nper pmt pv fv type s with
    | .inl _ => 1
    | .inr s1 => 1 + rateStepsUsed nper pmt pv fv type fuel s1

/-- Number of secant iterations a `RATE(nper, pmt, pv, fv, type, guess)`
call executes. -/
noncomputable def RATEiterations (nper pmt pv fv type guess : ℝ) : ℕ :=
  if nper ≤ 0 then 0
  else rateStepsUsed nper pmt pv fv type 128 (rateInit nper pmt pv fv type guess)

/-! ## Spec-side models of the NPER description (for the refinement claim) -/

/-- Transcription of the spec sentence describing `NPER` for comparison
with the implementation: `A = -fv + factor`, `B = pv + factor` with
`factor = pmt/rate` (arrears) or `pmt*(1+rate)/rate` (advance); if both A
and B are negative, negate both; if exactly one of A, B is non-positive,
fail; otherwise return `ln(A)/ln(1+rate) - ln(B)/ln(1+rate)`.  For
`rate = 0`: fail when `pmt = 0`, else return `-(pv+fv)/pmt`. -/
noncomputable def specNPER (rate pmt pv fv type : ℝ) : FinResult ℝ :=
  if rate = 0 then
    if pmt = 0 then .err "Error - Payment cannot be 0"
    else .num (-(pv + fv) / pmt)
  else
    let factor := if type ≠ 0 then pmt * (1 + rate) / rate else pmt / rate
    let A := -fv + factor
    let B := pv + factor
    if A < 0 ∧ B < 0 then
      .num (Real.log (-A) / Real.log (1 + rate) - Real.log (-B) / Real.log (1 + rate))
    else if (A ≤ 0 ∧ ¬B ≤ 0) ∨ (¬A ≤ 0 ∧ B ≤ 0) then
      .err "Error - Cannot Calculate NPER"
    else
      .num (Real.log A / Real.log (1 + rate) - Real.log B / Real.log (1 + rate))

/-- The amended spec sentence for `NPER`: as `specNPER`, but the failure
branch fires whenever at least one of A, B is non-positive (and the
both-negative negation case did not apply), not only when exactly one is. -/
noncomputable def specNPERamended (rate pmt pv fv type : ℝ) : FinResult ℝ :=
  if rate = 0 then
    if pmt = 0 then .err "Error - Payment cannot be 0"
    else .num (-(pv + fv) / pmt)
  else
    let factor := if type ≠ 0 then pmt * (1 + rate) / rate else pmt / rate
    let A := -fv + factor
    let B := pv + factor
    if A < 0 ∧ B < 0 then
      .num (Real.log (-A) / Real.log (1 + rate) - Real.log (-B) / Real.log (1 + rate))
    else if A ≤ 0 ∨ B ≤ 0 then
      .err "Error - Cannot Calculate NPER"
    else
      .num (Real.log A / Real.log (1 + rate) - Real.log B / Real.log (1 + rate))

/-! ## Theorems -/

/-- The sign filter of src/index.js line 500,
`! (npvType > 0 && tempVar2 > 0) || ! (npvType < 0 && tempVar2 < 0)`,
holds for every `npvType` and every value. -/
theorem npvFilter_true (npvType v : ℚ) :
    ¬(npvType > 0 ∧ v > 0) ∨ ¬(npvType < 0 ∧ v < 0) := by
  rcases le_or_lt npvType 0 with h | h
  · exact Or.inl fun hc => absurd hc.1 (not_lt.mpr h)
  · exact Or.inr fun hc => absurd hc.1 (not_lt.mpr h.le)

/-- The `EVALNPV` loop gives the same total for any `npvType` as for
`npvType = 0`. -/
theorem evalnpvLoop_npvType_eq (rate npvType : ℚ) (values : List ℚ)
    (upperBound : ℕ) :
    ∀ fuel i tempVar tempTotal,
      evalnpvLoop rate npvType values upperBound fuel i tempVar tempTotal
        = evalnpvLoop rate 0 values upperBound fuel i tempVar tempTotal := by
  intro fuel
  induction fuel with
  | zero => intro i tempVar tempTotal; rfl
  | succ n ih =>
    intro i tempVar tempTotal
    simp only [evalnpvLoop]
    by_cases hi : i ≤ upperBound
    · rw [if_pos hi, if_pos hi, if_pos (npvFilter_true npvType _),
        if_pos (npvFilter_true 0 _)]
      exact ih _ _ _
    · rw [if_neg hi, if_neg hi]

/-- C10: for every npvType (positive, zero, or negative), every rate,
values list and bounds, `EVALNPV(rate, values, npvType, lowerBound,
upperBound)` accumulates every value in range — the sign-filter condition
is always true, so the result is independent of `npvType` and always
equals `EVALNPV(rate, values, 0, lowerBound, upperBound)`. -/
theorem evalnpv_npvType_irrelevant (rate npvType : ℚ) (values : List ℚ)
    (lowerBound upperBound : ℕ) :
    EVALNPV rate values npvType lowerBound upperBound
      = EVALNPV rate values 0 lowerBound upperBound :=
  evalnpvLoop_npvType_eq rate npvType values upperBound _ _ _ _

/-- Closed form of the `EVALNPV` loop at `npvType = 0`: with the running
discount factor entering as `c`, the loop adds
`values[i+j] / (c * (1+rate)^(j+1))` for each remaining iteration `j`. -/
theorem evalnpvLoop_zero_sum (rate : ℚ) (values : List ℚ) (upperBound : ℕ) :
    ∀ fuel i (c t : ℚ), i + fuel = upperBound + 1 →
      evalnpvLoop rate 0 values upperBound fuel i c t
        = t + ∑ j in Finset.range fuel,
            values.getD (i + j) 0 / (c * (1 + rate) ^ (j + 1)) := by
  intro fuel
  induction fuel with
  | zero => intro i c t _; simp [evalnpvLoop]
  | succ n ih =>
    intro i c t h
    have hi : i ≤ upperBound := by omega
    simp only [evalnpvLoop, if_pos hi, if_pos (npvFilter_true 0 _)]
    rw [ih (i + 1) _ _ (by omega)]
    rw [Finset.sum_range_succ']
    have e1 : ∀ j ∈ Finset.range n,
        values.getD (i + 1 + j) 0 / ((c + c * rate) * (1 + rate) ^ (j + 1))
          = values.getD (i + (j + 1)) 0 / (c * (1 + rate) ^ (j + 1 + 1)) := by
      intro j _
      have hj : i + 1 + j = i + (j + 1) := by omega
      rw [hj]
      congr 1
      ring
    rw [Finset.sum_congr rfl e1]
    have e0 : values.getD i 0 / (c + c * rate)
        = values.getD (i + 0) 0 / (c * (1 + rate) ^ (0 + 1)) := by
      rw [Nat.add_zero]
      congr 1
      ring
    rw [e0]
    ring

/-- C6: for every rate ≠ −1 and every non-empty value list, `NPV` returns
the sum over i of `values[i] / (1+rate)^(i+1)` — the first cash flow is
discounted by `(1+rate)^1`, not included undiscounted; `NPV` fails when no
values are supplied or when `rate = −1`. -/
theorem npv_spec (rate : ℚ) (values : List ℚ) :
    NPV rate values
      = if values.length < 1 then .err "Error - Invalid Values"
        else if rate = -1 then .err "Error - Invalid Rate"
        else .num (∑ j in Finset.range values.length,
          values.getD j 0 / (1 + rate) ^ (j + 1)) := by
  unfold NPV
  by_cases hlen : values.length < 1
  · rw [if_pos hlen, if_pos hlen]
  · rw [if_neg hlen, if_neg hlen]
    by_cases hrate : rate = -1
    · rw [if_pos hrate, if_pos hrate]
    · rw [if_neg hrate, if_neg hrate]
      unfold EVALNPV
      rw [evalnpvLoop_zero_sum rate values (values.length - 1)
        (values.length - 1 + 1 - 0) 0 1 0 (by omega)]
      have hn : values.length - 1 + 1 - 0 = values.length := by omega
      rw [hn]
      simp

/-- C7: for every guess > −1, `IRR` applied to an empty values list returns
the null sentinel, not an error string; for every guess ≤ −1 and any values
list, `IRR` fails with the invalid-guess error — so the guess check happens
before the empty-values check. -/
theorem irr_guess_before_empty (values : List ℚ) (guess : ℚ) :
    (guess ≤ -1 → IRR values guess = .err "Error - invalid guess")
      ∧ (¬guess ≤ -1 → values = [] → IRR values guess = .nil) := by
  constructor
  · intro h
    simp [IRR, h]
  · intro h hv
    subst hv
    simp [IRR, h]

/-- Witness for C7: at `guess = −2` an empty list gets the invalid-guess
error, and at `guess = 0` an empty list yields the null sentinel. -/
theorem irr_guess_before_empty_example :
    IRR [] (-2) = .err "Error - invalid guess" ∧ IRR [] 0 = .nil :=
  ⟨(irr_guess_before_empty [] (-2)).1 (by norm_num),
    (irr_guess_before_empty [] 0).2 (by norm_num) rfl⟩

/-- The ternary `x > 0 ? x : x * -1` is the absolute value. -/
theorem ifAbs (x : ℚ) : (if x > 0 then x else x * (-1)) = |x| := by
  split_ifs with h
  · exact (abs_of_pos h).symm
  · rw [mul_neg_one]
    exact (abs_of_nonpos (not_lt.mp h)).symm

/-- The ternary `a > b ? a - b : b - a` is the absolute difference. -/
theorem ifAbsSub (a b : ℚ) : (if a > b then a - b else b - a) = |a - b| := by
  split_ifs with h
  · exact (abs_of_pos (sub_pos.mpr h)).symm
  · rw [abs_sub_comm]
    exact (abs_of_nonneg (sub_nonneg.mpr (not_lt.mp h))).symm

/-- When an IRR loop iteration returns a number `r`, the convergence test
held at `r`: the npv at `r` is below the scale-aware tolerance and `r` is
within `epslMax` of the previous trial rate `Rate1`. -/
theorem irrStep_num (values : List ℚ) (eps : ℚ) (s : IrrState) (r : ℚ)
    (h : irrStep values eps s = .inl (.num r)) :
    |InternalPV values r| < eps ∧ |r - s.Rate1| < irrEpslMax := by
  simp only [irrStep, ifAbs, ifAbsSub] at h
  split_ifs at h
  all_goals injection h with h1
  all_goals first
    | (injection h1 with h2; subst h2; assumption)
    | injection h1

/-- An IRR loop iteration never returns the iteration-budget error; that
string is produced only by fuel exhaustion. -/
theorem irrStep_no_iterMax_err (values : List ℚ) (eps : ℚ) (s : IrrState)
    (r : FinResult ℚ) (h : irrStep values eps s = .inl r) :
    r ≠ .err "Error - iterMax exceeded" := by
  simp only [irrStep] at h
  split_ifs at h
  all_goals injection h with h1
  all_goals subst h1
  all_goals simp

/-- If the IRR loop returns a number, the npv at that number is below the
tolerance. -/
theorem irrLoop_num (values : List ℚ) (eps : ℚ) :
    ∀ fuel s r, irrLoop values eps fuel s = .num r →
      |InternalPV values r| < eps := by
  intro fuel
  induction fuel with
  | zero => intro s r h; simp [irrLoop] at h
  | succ n ih =>
    intro s r h
    rw [irrLoop] at h
    cases hstep : irrStep values eps s with
    | inl r1 =>
      rw [hstep] at h
      subst h
      exact (irrStep_num values eps s r hstep).1
    | inr s1 =>
      rw [hstep] at h
      exact ih s1 r h

/-- The IRR loop yields the iteration-budget error exactly when every one
of its `fuel` iterations runs without returning. -/
theorem irrLoop_iterMax_iff (values : List ℚ) (eps : ℚ) :
    ∀ fuel s, irrLoop values eps fuel s = .err "Error - iterMax exceeded"
      ↔ (irrRuns values eps fuel s).isSome = true := by
  intro fuel
  induction fuel with
  | zero => intro s; simp [irrLoop, irrRuns]
  | succ n ih =>
    intro s
    rw [irrLoop, irrRuns]
    cases hstep : irrStep values eps s with
    | inl r1 =>
      simp only
      constructor
      · intro h
        exact absurd h (irrStep_no_iterMax_err values eps s r1 hstep)
      · intro h
        simp at h
    | inr s1 =>
      exact ih s1

/-- C3: `IRR` returns a numeric result `r` only when the convergence test
holds at `r` — `|Rate0 − Rate1| < 1e-7` and `|InternalPV(values, Rate0)| <
epsNpv` with `epsNpv = max|values[i]| * 1e-7 * 0.01` — and if the 40
secant iterations pass without meeting this test, `IRR` fails with the
iteration-limit error. -/
theorem irr_convergence (values : List ℚ) (guess : ℚ) :
    (∀ s r, irrStep values (irrNpvEpsl values) s = .inl (.num r) →
        |InternalPV values r| < irrNpvEpsl values ∧ |r - s.Rate1| < irrEpslMax)
      ∧ (∀ r, IRR values guess = .num r → |InternalPV values r| < irrNpvEpsl values)
      ∧ (IRR values guess = .err "Error - iterMax exceeded" ↔
          ¬guess ≤ -1 ∧ ¬values.length < 1 ∧ ¬irrRate1 values guess ≤ -1 ∧
            (irrRuns values (irrNpvEpsl values) 40 (irrInit values guess)).isSome
              = true) := by
  refine ⟨fun s r => irrStep_num values (irrNpvEpsl values) s r, fun r h => ?_, ?_⟩
  · unfold IRR at h
    split_ifs at h <;> simp_all
    exact irrLoop_num values (irrNpvEpsl values) 40 (irrInit values guess) r h
  · unfold IRR
    split_ifs with h1 h2 h3 <;> simp_all
    exact irrLoop_iterMax_iff values (irrNpvEpsl values) 40 (irrInit values guess)

/-- Witness for C3: the cash-flow list `[-1, 2]` with guess `1` converges;
the returned rate `1` satisfies both convergence inequalities, both at the
loop-step level (from the state the solver actually reaches) and at the
`IRR` level. -/
theorem irr_convergence_example :
    (|InternalPV [-1, 2] 1| < irrNpvEpsl [-1, 2]
        ∧ |(1 : ℚ) - (IrrState.mk (99999/100000) (1/199999) 1 0).Rate1| < irrEpslMax)
      ∧ |InternalPV [-1, 2] 1| < irrNpvEpsl [-1, 2] :=
  ⟨(irr_convergence [-1, 2] 1).1 ⟨99999/100000, 1/199999, 1, 0⟩ 1 (by
      norm_num [irrStep, irrNpvEpsl, irrMaxAbs, irrEpslMax, irrStepSize,
        InternalPV, hornerPV, List.dropWhile]),
    (irr_convergence [-1, 2] 1).2.1 1 (by
      norm_num [IRR, irrInit, irrRate1, irrNpvEpsl, irrMaxAbs, irrEpslMax,
        irrStepSize, irrLoop, irrStep, InternalPV, hornerPV, List.dropWhile])⟩

/-- A RATE loop iteration returns either a number or the `"#NUM!"` error,
never `undefined`. -/
theorem rateStep_ne_undef (nper pmt pv fv type : ℝ) (s : RateState)
    (r : FinResult ℝ) (h : rateStep nper pmt pv fv type s = .inl r) :
    r ≠ .undef := by
  simp only [rateStep] at h
  split_ifs at h
  all_goals injection h with h1
  all_goals subst h1
  all_goals simp

/-- The RATE loop yields `undefined` exactly when every one of its `fuel`
iterations runs without returning. -/
theorem rateLoop_undef_iff (nper pmt pv fv type : ℝ) :
    ∀ fuel s, rateLoop nper pmt pv fv type fuel s = .undef
      ↔ (rateRuns nper pmt pv fv type fuel s).isSome = true := by
  intro fuel
  induction fuel with
  | zero => intro s; simp [rateLoop, rateRuns]
  | succ n ih =>
    intro s
    rw [rateLoop, rateRuns]
    cases hstep : rateStep nper pmt pv fv type s with
    | inl r1 =>
      simp only
      constructor
      · intro h
        exact absurd h (rateStep_ne_undef nper pmt pv fv type s r1 hstep)
      · intro h
        simp at h
    | inr s1 =>
      exact ih s1

/-- C2: for every input on which the RATE secant iteration exhausts its
128-iteration budget without returning, RATE produces no defined result:
the call returns JavaScript `undefined` rather than a number or an error
string — and conversely, `undefined` arises only that way. -/
theorem rate_undef_iff (nper pmt pv fv type guess : ℝ) :
    RATE nper pmt pv fv type guess = .undef
      ↔ ¬nper ≤ 0 ∧
          (rateRuns nper pmt pv fv type 128
            (rateInit nper pmt pv fv type guess)).isSome = true := by
  unfold RATE
  split_ifs with h1
  · simp [h1]
  · rw [rateLoop_undef_iff nper pmt pv fv type 128
      (rateInit nper pmt pv fv type guess)]
    simp [h1]

/-- The IRR loop executes at most as many iterations as it is given fuel. -/
theorem irrStepsUsed_le (values : List ℚ) (eps : ℚ) :
    ∀ fuel s, irrStepsUsed values eps fuel s ≤ fuel := by
  intro fuel
  induction fuel with
  | zero => intro s; exact Nat.le_refl 0
  | succ n ih =>
    intro s
    rw [irrStepsUsed]
    cases hstep : irrStep values eps s with
    | inl r1 => simp
    | inr s1 =>
      simp only
      have := ih s1
      omega

/-- The RATE loop executes at most as many iterations as it is given fuel. -/
theorem rateStepsUsed_le (nper pmt pv fv type : ℝ) :
    ∀ fuel s, rateStepsUsed nper pmt pv fv type fuel s ≤ fuel := by
  intro fuel
  induction fuel with
  | zero => intro s; exact Nat.le_refl 0
  | succ n ih =>
    intro s
    rw [rateStepsUsed]
    cases hstep : rateStep nper pmt pv fv type s with
    | inl r1 => simp
    | inr s1 =>
      simp only
      have := ih s1
      omega

/-- C9: for every input, RATE and IRR terminate — RATE performs at most
128 secant iterations and IRR at most 40, so every call completes after a
bounded number of loop iterations regardless of input. -/
theorem solver_iterations_bounded (nper pmt pv fv type guess : ℝ)
    (values : List ℚ) (irrGuess : ℚ) :
    RATEiterations nper pmt pv fv type guess ≤ 128
      ∧ IRRiterations values irrGuess ≤ 40 := by
  constructor
  · unfold RATEiterations
    split_ifs
    · exact Nat.zero_le 128
    · exact rateStepsUsed_le nper pmt pv fv type 128 _
  · unfold IRRiterations
    split_ifs
    · exact Nat.zero_le 40
    · exact Nat.zero_le 40
    · exact Nat.zero_le 40
    · exact irrStepsUsed_le values (irrNpvEpsl values) 40 _

/-- C1 counterexample: at `rate = 1, pmt = 2, pv = -3, fv = 2, type = 0`
the intermediate terms are `A = 0` and `B = -1` — not both negative, and
not exactly one non-positive (both are) — so the spec sentence as stated
promises the logarithmic value, but the implementation fails with the
cannot-calculate error; the two disagree at this input. -/
theorem nper_spec_counterexample :
    NPER 1 2 (-3) 2 0 = .err "Error - Cannot Calculate NPER"
      ∧ specNPER 1 2 (-3) 2 0
          = .num (Real.log 0 / Real.log 2 - Real.log (-1) / Real.log 2)
      ∧ NPER 1 2 (-3) 2 0 ≠ specNPER 1 2 (-3) 2 0 := by
  have h1 : NPER 1 2 (-3) 2 0 = .err "Error - Cannot Calculate NPER" := by
    norm_num [NPER]
  have h2 : specNPER 1 2 (-3) 2 0
      = .num (Real.log 0 / Real.log 2 - Real.log (-1) / Real.log 2) := by
    norm_num [specNPER]
  refine ⟨h1, h2, ?_⟩
  rw [h1, h2]
  simp

/-- C1 (amended): for every rate ≠ 0, NPER computes `A = -fv + factor`,
`B = pv + factor` with `factor = pmt/rate` (arrears) or `pmt*(1+rate)/rate`
(advance); if both A and B are negative it negates both; otherwise if at
least one of A, B is non-positive it fails with the cannot-calculate
error; otherwise it returns `ln(A)/ln(1+rate) − ln(B)/ln(1+rate)`.  For
rate = 0 it fails when `pmt = 0` and otherwise returns `−(pv+fv)/pmt`. -/
theorem nper_matches_amended_spec (rate pmt pv fv type : ℝ) :
    NPER rate pmt pv fv type = specNPERamended rate pmt pv fv type := by
  simp only [NPER, specNPERamended]
  by_cases hr : rate = 0
  · rw [if_pos hr, if_pos hr]
  · rw [if_neg hr, if_neg hr]
    split_ifs
    all_goals first
      | rfl
      | (congr 1; rw [mul_neg_one, mul_neg_one, add_comm rate 1, sub_div])
      | (congr 1; rw [add_comm rate 1, sub_div])

/-- C4: for valid `per` (between 1 and nper) and `type` 0 or 1, IPMT
returns 0 when `type = 1` and `per = 1`, and otherwise returns `rate`
times `FV(rate, per − k, pmt, pvShift)` where `pmt = PMT(rate, nper, pv,
fv, type)`, `pvShift = pv + pmt` when `type = 1` (else `pv`), and `k = 2` when
`type = 1` (else `1`). -/
theorem ipmt_formula (rate per nper pv fv type : ℝ)
    (htype : type = 0 ∨ type = 1) (hlo : 1 ≤ per) (hhi : per ≤ nper) :
    IPMT rate per nper pv fv type
      = if type = 1 ∧ per = 1 then .num 0
        else .num (rate * FV rate (per - if type = 1 then 2 else 1)
            (PMT rate nper pv fv type)
            (if type = 1 then pv + PMT rate nper pv fv type else pv) 0) := by
  have hguard : ¬(per ≤ 0 ∨ per ≥ nper + 1) := by
    push_neg
    constructor <;> linarith
  rcases htype with ht | ht
  · subst ht
    simp only [IPMT]
    rw [if_neg hguard]
    norm_num
    rw [mul_comm]
  · subst ht
    simp only [IPMT]
    rw [if_neg hguard]
    by_cases hp : per = 1
    · norm_num [hp]
    · norm_num [hp]
      rw [mul_comm]

/-- Witness for C4: a concrete arrears-case instance, `rate = 1`,
`per = 1`, `nper = 2`. -/
theorem ipmt_formula_example :
    IPMT 1 1 2 100 0 0
      = if (0:ℝ) = 1 ∧ (1:ℝ) = 1 then .num 0
        else .num (1 * FV 1 (1 - if (0:ℝ) = 1 then 2 else 1)
            (PMT 1 2 100 0 0)
            (if (0:ℝ) = 1 then 100 + PMT 1 2 100 0 0 else 100) 0) :=
  ipmt_formula 1 1 2 100 0 0 (Or.inl rfl) le_rfl one_le_two

/-- C5 counterexample: at `per = 5/2 > nper = 2` (a per greater than nper
but smaller than nper + 1) both IPMT and PPMT return numbers, not the
invalid-period error the claim promises for every `per > nper`. -/
theorem per_bounds_counterexample :
    (2:ℝ) < 5/2
      ∧ IPMT 0 (5/2) 2 100 0 0 = .num 0
      ∧ PPMT 0 (5/2) 2 100 0 0 = .num (-50) := by
  refine ⟨by norm_num, ?_, ?_⟩
  · norm_num [IPMT, PMT, FV]
  · norm_num [PPMT, IPMT, PMT, FV]

/-- C5 (amended): for every rate, nper, pv, fv, type and every per with
`per ≤ 0` or `per ≥ nper + 1`, both IPMT and PPMT fail with the
invalid-period error; in particular `per = 0` and `per = nper + 1` fail. -/
theorem per_out_of_range_errors (rate per nper pv fv type : ℝ)
    (h : per ≤ 0 ∨ per ≥ nper + 1) :
    IPMT rate per nper pv fv type = .err "Error - invalid Period"
      ∧ PPMT rate per nper pv fv type = .err "Error - invalid Period" := by
  constructor
  · simp only [IPMT]
    rw [if_pos h]
  · simp only [PPMT]
    rw [if_pos h]

/-- Witness for the amended C5 claim: `per = 0` and `per = nper + 1 = 4`
(with `nper = 3`) both produce the invalid-period error from IPMT and
PPMT. -/
theorem per_out_of_range_errors_example :
    (IPMT 1 0 3 100 0 0 = .err "Error - invalid Period"
        ∧ PPMT 1 0 3 100 0 0 = .err "Error - invalid Period")
      ∧ (IPMT 1 4 3 100 0 0 = .err "Error - invalid Period"
        ∧ PPMT 1 4 3 100 0 0 = .err "Error - invalid Period") :=
  ⟨per_out_of_range_errors 1 0 3 100 0 0 (Or.inl (by norm_num)),
    per_out_of_range_errors 1 4 3 100 0 0 (Or.inr (by norm_num))⟩

/-- C8: for `rate ≠ 0`, `rate > −1`, `nper > 0`, substituting
`pmt = PMT(rate, nper, pv, fv, type)` back into FV reproduces `fv` (to the
claimed 1e-8 absolute tolerance — in exact arithmetic the round-trip is
exact); similarly `PV(rate, nper, pmt, fv, type)` round-trips through FV. -/
theorem pmt_pv_roundtrip_through_fv (rate nper pv fv pmt type : ℝ)
    (hr0 : rate ≠ 0) (hr1 : -1 < rate) (hn : 0 < nper) :
    |FV rate nper (PMT rate nper pv fv type) pv type - fv| ≤ 1 / 10 ^ 8
      ∧ |FV rate nper pmt (PV rate nper pmt fv type) type - fv| ≤ 1 / 10 ^ 8 := by
  have h1p : (0:ℝ) < 1 + rate := by linarith
  have hT : (0:ℝ) < (1 + rate) ^ nper := Real.rpow_pos_of_pos h1p nper
  have hTne1 : (1 + rate) ^ nper ≠ 1 := by
    rcases lt_or_gt_of_ne hr0 with h | h
    · have hb1 : 1 + rate < 1 := by linarith
      exact ne_of_lt (Real.rpow_lt_one h1p.le hb1 hn)
    · have hb1 : 1 < 1 + rate := by linarith
      exact ne_of_gt ((Real.one_lt_rpow_iff_of_pos h1p).mpr (Or.inl ⟨hb1, hn⟩))
  have hT1 : (1 + rate) ^ nper - 1 ≠ 0 := sub_ne_zero.mpr hTne1
  have htv : (if type ≠ 0 then 1 + rate else 1) ≠ 0 := by
    split_ifs
    · linarith
    · norm_num
  constructor
  · have hexact : FV rate nper (PMT rate nper pv fv type) pv type = fv := by
      simp only [FV, PMT, if_neg hr0]
      simp only [add_comm rate 1]
      by_cases ht : type ≠ 0
      · rw [if_pos ht]
        field_simp
        ring
      · rw [if_neg ht]
        field_simp
        ring
    rw [hexact, sub_self, abs_zero]
    norm_num
  · have hexact : FV rate nper pmt (PV rate nper pmt fv type) type = fv := by
      simp only [FV, PV, if_neg hr0]
      by_cases ht : type ≠ 0
      · rw [if_pos ht]
        field_simp
        ring
      · rw [if_neg ht]
        field_simp
        ring
    rw [hexact, sub_self, abs_zero]
    norm_num

/-- Witness for C8 at `rate = 1`, `nper = 1`, `pv = 100`, `fv = 50`,
`pmt = 7`, `type = 0`. -/
theorem pmt_pv_roundtrip_example :
    |FV 1 1 (PMT 1 1 100 50 0) 100 0 - 50| ≤ 1 / 10 ^ 8
      ∧ |FV 1 1 7 (PV 1 1 7 50 0) 0 - 50| ≤ 1 / 10 ^ 8 :=
  pmt_pv_roundtrip_through_fv 1 1 100 50 7 0 (by norm_num) (by norm_num)
    (by norm_num)

end Tvm
